import Mathlib

/-!
Verification of the column metadata abstraction in `db/columns/base.py`
(`MathesarColumn`): a shallow embedding of the data model and of every
derived property (`table_`, `is_default`, `valid_target_types`,
`column_index`, `default_value`, `plain_type`, `type_options`), together
with theorems settling the specified properties.

External collaborators (`get_oid_from_table`, `get_column_index_from_name`,
`get_column_default`, `get_full_cast_map`, the inspector's `has_table`) are
not part of the source file; they are modelled at their interface boundary
(spec section 6) as lookups against an abstract catalog carried by the
engine, failing when invoked without a live connection.
-/

namespace Mathesar

/-- A reference to a table: its name and optional schema. -/
structure Table where
  name : String
  schema : Option String
deriving DecidableEq, Repr

/-- A foreign key as used by `from_column`: it is rebuilt from
`fk.target_fullname`, so the model carries exactly the qualified target
name and no live object reference. -/
structure ForeignKey where
  target_fullname : String
deriving DecidableEq, Repr

/-- A SQLAlchemy type instance, restricted to what the source reads:
its class (used by `plain_type` to render the bare name), the Python-level
scalar type of the class (used by `is_default`), and its declared
parameters (used by `type_options`). -/
structure SAType where
  className : String
  python_type : String
  precision : Option Nat
  scale : Option Nat
deriving DecidableEq, Repr

/-- A dialect renders a type class to its bare type name
(`type.__class__().compile(dialect)`). -/
structure Dialect where
  compileBare : String → String

/-- Modelled from the spec: the live catalog state behind the external
collaborators of section 6 (`table_exists`, `resolve_table_id`,
`resolve_column_index`, `resolve_column_default`). -/
structure Catalog where
  hasTable : String → Option String → Bool
  oidOf : String → Option String → Nat
  columnIndexFromName : Nat → String → Option Nat
  columnDefault : Nat → Option Nat → Option String

/-- A live connection handle: dialect, catalog and the dialect-scoped
cast map built by `get_full_cast_map`. -/
structure Engine where
  dialect : Dialect
  catalog : Catalog
  castMap : String → List String

/-- Modelled from the spec: `resolve_table_id(name, schema, engine)`
(section 6). It needs a live connection; called with an unbound (None)
engine it fails, and such collaborator failures propagate unchanged
(section 7). With a connection it returns the opaque table identifier. -/
def get_oid_from_table (name : String) (schema : Option String)
    (engine : Option Engine) : Except String Nat :=
  match engine with
  | some e => Except.ok (e.catalog.oidOf name schema)
  | none => Except.error "AttributeError: NoneType object has no attribute begin"

/-- Modelled from the spec: `resolve_column_index(table_id, column_name,
engine)` (section 6), returning the ordinal position or absent; fails when
invoked without a live connection. -/
def get_column_index_from_name (table_oid : Nat) (column_name : String)
    (engine : Option Engine) : Except String (Option Nat) :=
  match engine with
  | some e => Except.ok (e.catalog.columnIndexFromName table_oid column_name)
  | none => Except.error "AttributeError: NoneType object has no attribute connect"

/-- Modelled from the spec: `resolve_column_default(table_id, column_index,
engine)` (section 6), tolerating an absent ordinal; fails when invoked
without a live connection. -/
def get_column_default (table_oid : Nat) (column_index : Option Nat)
    (engine : Option Engine) : Except String (Option String) :=
  match engine with
  | some e => Except.ok (e.catalog.columnDefault table_oid column_index)
  | none => Except.error "AttributeError: NoneType object has no attribute connect"

/-- One entry of the default-column registry `DEFAULT_COLUMNS`: the
required Python-level scalar type, and the expected `primary_key` and
`nullable` flags (optional, read with defaults false and true). -/
structure DefaultDef where
  python_type : String
  primary_key : Option Bool
  nullable : Option Bool
deriving DecidableEq, Repr

/-- Modelled from the spec: the default-column registry (section 3), an
immutable mapping from canonical column name to template, injected
explicitly (section 9) since `db/columns/defaults.py` is external to the
source file. -/
abbrev Registry : Type := String → Option DefaultDef

/-- The `MathesarColumn` entity: the `__init__` fields plus the
optionally-set attributes `engine` (set to None at construction),
`table` (set by SQLAlchemy when the column is registered on a live table)
and `original_table` (set by `from_column`). -/
structure MathesarColumn where
  name : String
  type : SAType
  foreign_keys : List ForeignKey
  primary_key : Bool
  nullable : Bool
  server_default : Option String
  engine : Option Engine
  table : Option Table
  original_table : Option Table

/-- `MathesarColumn.__init__`: stores the given fields, sets `engine` to
None; a freshly constructed column is attached to no table and has no
historical table. -/
def MathesarColumn.create (name : String) (sa_type : SAType)
    (foreign_keys : List ForeignKey) (primary_key : Bool) (nullable : Bool)
    (server_default : Option String) : MathesarColumn :=
  { name := name
    type := sa_type
    foreign_keys := foreign_keys
    primary_key := primary_key
    nullable := nullable
    server_default := server_default
    engine := none
    table := none
    original_table := none }

/-- `MathesarColumn.from_column`: copies name, type, primary_key, nullable
and server_default, rebuilds the foreign keys from the target full names,
and records the source's `table` attribute as `original_table`. -/
def MathesarColumn.from_column (column : MathesarColumn) : MathesarColumn :=
  let fkeys := column.foreign_keys.map fun fk => ForeignKey.mk fk.target_fullname
  let new_column := MathesarColumn.create column.name column.type fkeys
    column.primary_key column.nullable column.server_default
  { new_column with original_table := column.table }

/-- The `table_` property: the current table if present, else the table
the column was originally created from, else None. -/
def MathesarColumn.table_ (c : MathesarColumn) : Option Table :=
  match c.table with
  | some t => some t
  | none =>
    match c.original_table with
    | some t => some t
    | none => none

/-- The `is_default` property: looks `name` up in the registry and
compares python_type, primary_key (default false) and nullable
(default true) against the template. -/
def MathesarColumn.is_default (registry : Registry) (c : MathesarColumn) : Bool :=
  match registry c.name with
  | none => false
  | some default_def =>
    decide (c.type.python_type = default_def.python_type)
      && decide (c.primary_key = default_def.primary_key.getD false)
      && decide (c.nullable = default_def.nullable.getD true)

/-- `add_engine`: binds a live connection to the column. -/
def MathesarColumn.add_engine (c : MathesarColumn) (engine : Engine) : MathesarColumn :=
  { c with engine := some engine }

/-- The `plain_type` property: renders the type's class through the bound
engine's dialect compiler; with no bound engine the attribute access
`self.engine.dialect` fails. -/
def MathesarColumn.plain_type (c : MathesarColumn) : Except String String :=
  match c.engine with
  | none => Except.error "AttributeError: NoneType object has no attribute dialect"
  | some e => Except.ok (e.dialect.compileBare c.type.className)

/-- Lexicographic comparison of code-point sequences, the order Python
`sorted` uses on strings. -/
def lexLe : List Nat → List Nat → Bool
  | [], _ => true
  | _ :: _, [] => false
  | a :: as, b :: bs =>
    if a < b then true
    else if b < a then false
    else lexLe as bs

/-- String comparison by Unicode code points, as Python compares `str`. -/
def strLe (a b : String) : Bool :=
  lexLe (a.data.map Char.toNat) (b.data.map Char.toNat)

/-- Ascending sort of a list of strings, as Python `sorted`. -/
def sortStrings (xs : List String) : List String :=
  List.insertionSort (fun a b => strLe a b = true) xs

/-- The `valid_target_types` property: when an engine is bound and the
column is not a system default, looks the bare type name up in the cast
map and returns the sorted de-duplicated target names, or None when the
set is empty; otherwise None. -/
def MathesarColumn.valid_target_types (registry : Registry)
    (c : MathesarColumn) : Option (List String) :=
  match c.engine with
  | none => none
  | some e =>
    if MathesarColumn.is_default registry c then none
    else
      let db_type := e.dialect.compileBare c.type.className
      let vtt := sortStrings (e.castMap db_type).dedup
      if vtt.isEmpty then none else some vtt

/-- The `column_index` property: defined only when an engine is bound, an
effective table is present and the live existence check confirms the
table; then resolves the oid and delegates to the name-to-index lookup. -/
def MathesarColumn.column_index (c : MathesarColumn) : Option Nat :=
  match c.engine with
  | none => none
  | some e =>
    match c.table_ with
    | none => none
    | some t =>
      if e.catalog.hasTable t.name t.schema then
        e.catalog.columnIndexFromName (e.catalog.oidOf t.name t.schema) c.name
      else
        none

/-- The `default_value` property: guards only on the effective table being
present, then resolves the oid (passing the possibly-unbound engine to the
collaborator) and delegates to the default-value lookup. -/
def MathesarColumn.default_value (c : MathesarColumn) : Except String (Option String) :=
  match c.table_ with
  | none => Except.ok none
  | some t =>
    match get_oid_from_table t.name t.schema c.engine with
    | Except.error msg => Except.error msg
    | Except.ok table_oid => get_column_default table_oid c.column_index c.engine

/-- The `type_options` property: collects the present, non-null type
parameters and returns None (not an empty container) when there are
none. -/
def MathesarColumn.type_options (c : MathesarColumn) : Option (List (String × Nat)) :=
  let full_type_options := [("precision", c.type.precision), ("scale", c.type.scale)]
  let opts := full_type_options.filterMap fun kv => kv.2.map fun v => (kv.1, v)
  if opts.isEmpty then none else some opts

/-! Properties of the string order and of `sortStrings`. -/

theorem lexLe_total (as : List Nat) : ∀ bs, lexLe as bs = true ∨ lexLe bs as = true := by
  induction as with
  | nil => intro bs; left; cases bs <;> rfl
  | cons a as ih =>
    intro bs
    cases bs with
    | nil => right; rfl
    | cons b bs =>
      rcases Nat.lt_trichotomy a b with h | h | h
      · left; simp [lexLe, h]
      · subst h
        rcases ih bs with h2 | h2
        · left; simp [lexLe, h2]
        · right; simp [lexLe, h2]
      · right; simp [lexLe, h]

theorem lexLe_trans (as : List Nat) :
    ∀ bs cs, lexLe as bs = true → lexLe bs cs = true → lexLe as cs = true := by
  induction as with
  | nil => intro bs cs _ _; cases cs <;> rfl
  | cons a as ih =>
    intro bs cs h1 h2
    cases bs with
    | nil => simp [lexLe] at h1
    | cons b bs =>
      cases cs with
      | nil => simp [lexLe] at h2
      | cons c cs =>
        simp only [lexLe] at h1 h2 ⊢
        rcases Nat.lt_trichotomy a b with hab | hab | hab
        · rcases Nat.lt_trichotomy b c with hbc | hbc | hbc
          · simp [Nat.lt_trans hab hbc]
          · subst hbc; simp [hab]
          · simp [Nat.lt_asymm hbc, hbc] at h2
        · subst hab
          simp only [Nat.lt_irrefl, if_false] at h1
          rcases Nat.lt_trichotomy a c with hac | hac | hac
          · simp [hac]
          · subst hac
            simp only [Nat.lt_irrefl, if_false] at h2 ⊢
            exact ih bs cs h1 h2
          · simp [Nat.lt_asymm hac, hac] at h2
        · simp [Nat.lt_asymm hab, hab] at h1

theorem strLe_total (a b : String) : strLe a b = true ∨ strLe b a = true :=
  lexLe_total _ _

theorem strLe_trans (a b c : String) :
    strLe a b = true → strLe b c = true → strLe a c = true :=
  lexLe_trans _ _ _

instance : IsTotal String fun a b => strLe a b = true := ⟨strLe_total⟩

instance : IsTrans String fun a b => strLe a b = true := ⟨strLe_trans⟩

theorem sortStrings_perm (xs : List String) : (sortStrings xs).Perm xs :=
  List.perm_insertionSort _ _

theorem sortStrings_sorted (xs : List String) :
    (sortStrings xs).Sorted fun a b => strLe a b = true :=
  List.sorted_insertionSort _ _

theorem sortStrings_nodup (xs : List String) (h : xs.Nodup) : (sortStrings xs).Nodup :=
  (sortStrings_perm xs).nodup_iff.mpr h

theorem mem_sortStrings (s : String) (xs : List String) : s ∈ sortStrings xs ↔ s ∈ xs :=
  (sortStrings_perm xs).mem_iff

theorem sortStrings_eq_nil_iff (xs : List String) : sortStrings xs = [] ↔ xs = [] := by
  constructor
  · intro h
    have hperm := sortStrings_perm xs
    rw [h] at hperm
    exact hperm.symm.eq_nil
  · intro h
    subst h
    rfl

theorem valid_target_types_bound (registry : Registry) (c : MathesarColumn)
    (e : Engine) (he : c.engine = some e)
    (hd : MathesarColumn.is_default registry c = false) :
    MathesarColumn.valid_target_types registry c =
      if sortStrings ((e.castMap (e.dialect.compileBare c.type.className)).dedup) = []
      then none
      else some (sortStrings ((e.castMap (e.dialect.compileBare c.type.className)).dedup)) := by
  unfold MathesarColumn.valid_target_types
  rw [he, hd]
  simp [List.isEmpty_iff]

/-! Concrete instances used by witnesses and counterexamples. -/

def tableEx : Table := { name := "authors", schema := some "library" }

def typeText : SAType :=
  { className := "VARCHAR", python_type := "str", precision := none, scale := none }

def typeNumeric : SAType :=
  { className := "NUMERIC", python_type := "Decimal", precision := some 10, scale := some 2 }

def typeInteger : SAType :=
  { className := "INTEGER", python_type := "int", precision := none, scale := none }

def registryEx : Registry := fun n =>
  if n = "id" then
    some { python_type := "int", primary_key := some true, nullable := some false }
  else none

def dialectEx : Dialect := { compileBare := fun n => n }

def catalogEx : Catalog :=
  { hasTable := fun n s => decide (n = "authors" ∧ s = some "library")
    oidOf := fun _ _ => 42
    columnIndexFromName := fun oid cn => if oid = 42 ∧ cn = "title" then some 3 else none
    columnDefault := fun _ idx => idx.map fun _ => "0" }

def castMapEx : String → List String :=
  fun t => if t = "INTEGER" then ["text", "boolean", "text"] else []

def engineEx : Engine :=
  { dialect := dialectEx, catalog := catalogEx, castMap := castMapEx }

def colTitle : MathesarColumn :=
  MathesarColumn.create "title" typeText [] false true none

def colHist : MathesarColumn := { colTitle with original_table := some tableEx }

def colAttached : MathesarColumn := { colTitle with table := some tableEx }

def colBound : MathesarColumn :=
  { colTitle with type := typeInteger, engine := some engineEx }

def colAttachedBound : MathesarColumn :=
  { colTitle with table := some tableEx, engine := some engineEx }

def colId : MathesarColumn :=
  MathesarColumn.create "id" typeInteger [] true false none

def colNumeric : MathesarColumn := { colTitle with type := typeNumeric }

def colFk : MathesarColumn :=
  { colTitle with foreign_keys := [ForeignKey.mk "library.authors.id"] }

/-! The claims. -/

/-- C1 counterexample: a column whose effective table is present (a
historical table) but whose engine is unbound; reading `default_value`
fails (the oid lookup dereferences the absent engine) instead of yielding
an absent result, refuting the claim at this input. -/
theorem default_value_unbound_engine_cx :
    colHist.table_ = some tableEx ∧ colHist.engine = none ∧
      (MathesarColumn.default_value colHist).isOk = false :=
  ⟨rfl, rfl, rfl⟩

/-- C1 (amended): for every column whose effective table is present but
whose engine is unbound (None), reading `default_value` fails — the table
identifier lookup dereferences the absent engine — rather than yielding
an absent result. -/
theorem default_value_unbound_engine_fails (c : MathesarColumn) (t : Table)
    (ht : MathesarColumn.table_ c = some t) (he : c.engine = none) :
    (MathesarColumn.default_value c).isOk = false := by
  unfold MathesarColumn.default_value
  rw [ht, he]
  rfl

/-- Witness for the amended C1 at a concrete column with a historical
table and no engine. -/
theorem default_value_unbound_engine_fails_witness :
    (MathesarColumn.default_value colHist).isOk = false :=
  default_value_unbound_engine_fails colHist tableEx rfl rfl

/-- C2 counterexample: a source column that is detached but has a
historical table. Its effective table is present, yet the copy produced
by `from_column` has no table context at all (the source records
`column.table`, not the effective table), refuting the claim that the
copy's context is Historical(source's effective table). -/
theorem from_column_table_context_cx :
    colHist.table_ = some tableEx ∧
      (MathesarColumn.from_column colHist).original_table = none ∧
      (MathesarColumn.from_column colHist).table_ = none :=
  ⟨rfl, rfl, rfl⟩

/-- C2 (amended): `from_column` records the source's *attached* table (its
`table` attribute) as the copy's historical table — None whenever the
source was detached, even if the source had a historical table — and the
copy is detached: no attached table and no engine. -/
theorem from_column_table_context (column : MathesarColumn) :
    (MathesarColumn.from_column column).original_table = column.table ∧
      (MathesarColumn.from_column column).table = none ∧
      (MathesarColumn.from_column column).engine = none :=
  ⟨rfl, rfl, rfl⟩

/-- C3: `valid_target_types` is absent when the engine is unbound or the
column is a system default; with an engine bound and `is_default` false it
is absent exactly when the cast-map entry for the bare type name is empty,
and any returned list is sorted, duplicate-free, and contains exactly the
cast-map entries for the bare type name. -/
theorem valid_target_types_spec (registry : Registry) (c : MathesarColumn) :
    (c.engine = none → MathesarColumn.valid_target_types registry c = none) ∧
    (MathesarColumn.is_default registry c = true →
      MathesarColumn.valid_target_types registry c = none) ∧
    ∀ e, c.engine = some e → MathesarColumn.is_default registry c = false →
      ((MathesarColumn.valid_target_types registry c = none ↔
        e.castMap (e.dialect.compileBare c.type.className) = []) ∧
      ∀ l, MathesarColumn.valid_target_types registry c = some l →
        l.Sorted (fun a b => strLe a b = true) ∧ l.Nodup ∧
        ∀ s, s ∈ l ↔ s ∈ e.castMap (e.dialect.compileBare c.type.className)) := by
  refine ⟨?_, ?_, ?_⟩
  · intro h
    unfold MathesarColumn.valid_target_types
    rw [h]
  · intro h
    unfold MathesarColumn.valid_target_types
    cases he : c.engine with
    | none => rfl
    | some e => rw [h]; simp
  · intro e he hd
    rw [valid_target_types_bound registry c e he hd]
    by_cases hnil :
        sortStrings ((e.castMap (e.dialect.compileBare c.type.className)).dedup) = []
    · rw [if_pos hnil]
      refine ⟨?_, ?_⟩
      · simp only [true_iff]
        exact (List.dedup_eq_nil _).mp ((sortStrings_eq_nil_iff _).mp hnil)
      · intro l hl
        exact absurd hl (by simp)
    · rw [if_neg hnil]
      refine ⟨?_, ?_⟩
      · constructor
        · intro hh; exact absurd hh (by simp)
        · intro hh
          exact absurd ((sortStrings_eq_nil_iff _).mpr (by rw [hh]; rfl)) hnil
      · intro l hl
        have hleq :
            l = sortStrings ((e.castMap (e.dialect.compileBare c.type.className)).dedup) :=
          (Option.some.inj hl).symm
        subst hleq
        refine ⟨sortStrings_sorted _, sortStrings_nodup _ (List.nodup_dedup _), ?_⟩
        intro s
        exact (mem_sortStrings s _).trans (List.mem_dedup)

/-- Witness for C3: a bound non-default integer column over a cast map
with a duplicate entry; the result is the sorted de-duplicated list, and
the theorem certifies it duplicate-free. -/
theorem valid_target_types_spec_witness :
    MathesarColumn.valid_target_types registryEx colBound = some ["boolean", "text"] ∧
      (["boolean", "text"] : List String).Nodup :=
  ⟨rfl,
    (((valid_target_types_spec registryEx colBound).2.2 engineEx rfl rfl).2
      ["boolean", "text"] rfl).2.1⟩

/-- C4: `is_default` is true exactly when a registry template exists for
the column's name and python type, primary_key (default false) and
nullable (default true) all match the template; with no template it is
false for every type/flags combination. -/
theorem is_default_iff (registry : Registry) (c : MathesarColumn) :
    (MathesarColumn.is_default registry c = true ↔
      ∃ d, registry c.name = some d ∧
        c.type.python_type = d.python_type ∧
        c.primary_key = d.primary_key.getD false ∧
        c.nullable = d.nullable.getD true) ∧
    (registry c.name = none → MathesarColumn.is_default registry c = false) := by
  unfold MathesarColumn.is_default
  cases h : registry c.name with
  | none => simp
  | some d =>
    constructor
    · simp only [Bool.and_eq_true, decide_eq_true_eq]
      constructor
      · rintro ⟨⟨h1, h2⟩, h3⟩
        exact ⟨d, rfl, h1, h2, h3⟩
      · rintro ⟨d2, hd2, h1, h2, h3⟩
        injection hd2 with h4
        subst h4
        exact ⟨⟨h1, h2⟩, h3⟩
    · intro hh
      exact absurd hh (by simp)

/-- Witness for C4: the registry template for "id" matches the concrete id
column, and a name absent from the registry yields false. -/
theorem is_default_iff_witness :
    MathesarColumn.is_default registryEx colId = true ∧
      MathesarColumn.is_default registryEx colTitle = false :=
  ⟨(is_default_iff registryEx colId).1.mpr
      ⟨{ python_type := "int", primary_key := some true, nullable := some false },
        rfl, rfl, rfl, rfl⟩,
    (is_default_iff registryEx colTitle).2 rfl⟩

/-- C5: `column_index` is absent unless the engine is bound, the effective
table is present and the live existence check confirms the table; when all
three hold it is the ordinal reported by the name-to-index lookup keyed by
the oid-lookup result and the column's name. -/
theorem column_index_spec (c : MathesarColumn) :
    (c.engine = none → MathesarColumn.column_index c = none) ∧
    (MathesarColumn.table_ c = none → MathesarColumn.column_index c = none) ∧
    ∀ e t, c.engine = some e → MathesarColumn.table_ c = some t →
      (e.catalog.hasTable t.name t.schema = false →
        MathesarColumn.column_index c = none) ∧
      (e.catalog.hasTable t.name t.schema = true →
        MathesarColumn.column_index c =
          e.catalog.columnIndexFromName (e.catalog.oidOf t.name t.schema) c.name) := by
  refine ⟨?_, ?_, ?_⟩
  · intro h
    unfold MathesarColumn.column_index
    rw [h]
  · intro h
    unfold MathesarColumn.column_index
    cases he : c.engine with
    | none => rfl
    | some e => rw [h]
  · intro e t he ht
    unfold MathesarColumn.column_index
    rw [he, ht]
    constructor
    · intro hh
      simp [hh]
    · intro hh
      simp [hh]

/-- Witness for C5: a bound, attached column over a catalog in which the
table exists and the lookup reports ordinal 3. -/
theorem column_index_spec_witness :
    engineEx.catalog.hasTable tableEx.name tableEx.schema = true ∧
      MathesarColumn.column_index colAttachedBound = some 3 :=
  ⟨rfl,
    (((column_index_spec colAttachedBound).2.2 engineEx tableEx rfl rfl).2 rfl).trans rfl⟩

/-- C6: `table_` returns the attached table when present, else the
historical one, else None — the fixed priority Attached over Historical
over None. -/
theorem table_priority (c : MathesarColumn) :
    (∀ t, c.table = some t → MathesarColumn.table_ c = some t) ∧
    (c.table = none → ∀ t, c.original_table = some t →
      MathesarColumn.table_ c = some t) ∧
    (c.table = none → c.original_table = none → MathesarColumn.table_ c = none) := by
  unfold MathesarColumn.table_
  refine ⟨?_, ?_, ?_⟩
  · intro t h
    rw [h]
  · intro h t h2
    rw [h, h2]
  · intro h h2
    rw [h, h2]

/-- Witness for C6 at attached, historical-only and fully detached
columns. -/
theorem table_priority_witness :
    colAttached.table_ = some tableEx ∧ colHist.table_ = some tableEx ∧
      colTitle.table_ = none :=
  ⟨(table_priority colAttached).1 tableEx rfl,
    (table_priority colHist).2.1 rfl tableEx rfl,
    (table_priority colTitle).2.2 rfl rfl⟩

/-- C7: the copy produced by `from_column` replicates name, type,
primary_key, nullable and server_default. Mutation is modelled by
functional update, so mutating the copy cannot alter the source. -/
theorem from_column_fields (column : MathesarColumn) :
    (MathesarColumn.from_column column).name = column.name ∧
      (MathesarColumn.from_column column).type = column.type ∧
      (MathesarColumn.from_column column).primary_key = column.primary_key ∧
      (MathesarColumn.from_column column).nullable = column.nullable ∧
      (MathesarColumn.from_column column).server_default = column.server_default :=
  ⟨rfl, rfl, rfl, rfl, rfl⟩

/-- C8: the foreign keys of a copy are rebuilt purely from the qualified
target names of the source's foreign keys; the copy is independent of any
engine or catalog state (so it survives the target table being dropped),
and a name is a foreign-key target of the copy exactly when it is one of
the source. -/
theorem from_column_foreign_keys (column : MathesarColumn) :
    (MathesarColumn.from_column column).foreign_keys
        = column.foreign_keys.map (fun fk => ForeignKey.mk fk.target_fullname) ∧
    (∀ e, MathesarColumn.from_column (MathesarColumn.add_engine column e)
        = MathesarColumn.from_column column) ∧
    ∀ n, ForeignKey.mk n ∈ (MathesarColumn.from_column column).foreign_keys ↔
      ∃ fk ∈ column.foreign_keys, fk.target_fullname = n := by
  refine ⟨rfl, fun e => rfl, ?_⟩
  intro n
  simp only [MathesarColumn.from_column, MathesarColumn.create, List.mem_map,
    ForeignKey.mk.injEq]

/-- Witness for C8: the qualified name survives copying a column whose
foreign key targets a table known only by name. -/
theorem from_column_foreign_keys_witness :
    ForeignKey.mk "library.authors.id" ∈
      (MathesarColumn.from_column colFk).foreign_keys :=
  ((from_column_foreign_keys colFk).2.2 "library.authors.id").mpr
    ⟨ForeignKey.mk "library.authors.id", by decide, rfl⟩

/-- C9: `type_options` is absent when the type declares no present
parameters, never an empty container, and collects exactly the present
parameters — precision and scale — when both are declared. -/
theorem type_options_spec (c : MathesarColumn) :
    (c.type.precision = none → c.type.scale = none →
      MathesarColumn.type_options c = none) ∧
    MathesarColumn.type_options c ≠ some [] ∧
    ∀ p s, c.type.precision = some p → c.type.scale = some s →
      MathesarColumn.type_options c = some [("precision", p), ("scale", s)] := by
  unfold MathesarColumn.type_options
  refine ⟨?_, ?_, ?_⟩
  · intro h1 h2
    rw [h1, h2]
    rfl
  · cases hp : c.type.precision <;> cases hs : c.type.scale <;> simp [hp, hs]
  · intro p s h1 h2
    rw [h1, h2]
    rfl

/-- Witness for C9: a numeric type with precision 10 and scale 2 yields
exactly those options; a parameterless string type yields absence. -/
theorem type_options_spec_witness :
    MathesarColumn.type_options colNumeric = some [("precision", 10), ("scale", 2)] ∧
      MathesarColumn.type_options colTitle = none :=
  ⟨(type_options_spec colNumeric).2.2 10 2 rfl rfl,
    (type_options_spec colTitle).1 rfl rfl⟩

/-- C10: `plain_type` fails when the engine is unbound (it dereferences
the absent engine's dialect) and is defined — the bare type name rendered
by the bound dialect — exactly when an engine is bound. -/
theorem plain_type_unbound_fails (c : MathesarColumn) :
    (c.engine = none → (MathesarColumn.plain_type c).isOk = false) ∧
    ∀ e, c.engine = some e →
      MathesarColumn.plain_type c = Except.ok (e.dialect.compileBare c.type.className) := by
  unfold MathesarColumn.plain_type
  constructor
  · intro h
    rw [h]
    rfl
  · intro e h
    rw [h]

/-- Witness for C10: the detached column fails, the bound column renders
its bare type name. -/
theorem plain_type_unbound_fails_witness :
    (MathesarColumn.plain_type colTitle).isOk = false ∧
      MathesarColumn.plain_type colBound = Except.ok "INTEGER" :=
  ⟨(plain_type_unbound_fails colTitle).1 rfl,
    (plain_type_unbound_fails colBound).2 engineEx rfl⟩

end Mathesar
